import Mathlib

/-!
Shallow embedding of the simulation core of src/game.js (a top-down arcade
shooter). Numbers are rationals. The transcendental library functions used by
the source (Math.sqrt, Math.cos, Math.sin, Math.atan2) and its randomness
(Math.random, used for shake deltas, particle parameters and enemy spawns) are
modelled as oracle functions carried in an Env record: every theorem below that
depends on them quantifies over the oracle, and concrete evaluations pick a
concrete oracle. Distance tests compare squared distances against the squared
radius sum, which is equivalent to the sqrt form of the source because the
radius sum is positive for every entity the source constructs. Sound is
modelled as a log of cue records, one appended per playSound call site.
-/

namespace Shooter2D

/-- Module constant shakeDecay = 0.92 of src/game.js. -/
def shakeDecay : ℚ := 92 / 100

/-- Module constant comboResetTime = 2 of src/game.js. -/
def comboResetTime : ℚ := 2

/-- Module constant shootCooldown = 0.15 of src/game.js. -/
def shootCooldown : ℚ := 15 / 100

/-- Module constant waveBannerDuration = 2 of src/game.js. -/
def waveBannerDuration : ℚ := 2

/-- Particle record of class Particle (cosmetic burst element). -/
structure Particle where
  x : ℚ
  y : ℚ
  vx : ℚ
  vy : ℚ
  lifetime : ℚ
  age : ℚ
  size : ℚ
deriving DecidableEq

/-- Bullet record of class Bullet. -/
structure Bullet where
  x : ℚ
  y : ℚ
  prevX : ℚ
  prevY : ℚ
  angle : ℚ
  speed : ℚ
  radius : ℚ
  lifetime : ℚ
  age : ℚ
deriving DecidableEq

/-- Dash afterimage snapshot pushed onto player.ghostAfterimages. -/
structure Ghost where
  x : ℚ
  y : ℚ
  angle : ℚ
  alpha : ℚ
  age : ℚ
deriving DecidableEq

/-- Enemy record of class Enemy. -/
structure Enemy where
  x : ℚ
  y : ℚ
  radius : ℚ
  speed : ℚ
  hp : ℚ
  hitFlash : ℚ
deriving DecidableEq

/-- Player record of class Player. -/
structure Player where
  x : ℚ
  y : ℚ
  radius : ℚ
  speed : ℚ
  angle : ℚ
  hp : ℚ
  maxHp : ℚ
  invulnerable : ℚ
  invulnerableTime : ℚ
  dashActive : Bool
  dashTimer : ℚ
  dashDuration : ℚ
  dashCooldown : ℚ
  dashCooldownTime : ℚ
  dashSpeed : ℚ
  dashDirX : ℚ
  dashDirY : ℚ
  ghostAfterimages : List Ghost
  recoilOffset : ℚ
deriving DecidableEq

/-- The gameState string of src/game.js: playing, paused or gameOver. -/
inductive Mode where
  | playing
  | pausedMode
  | gameOver
deriving DecidableEq

/-- One playSound call, logged as data: frequency, duration, volume. -/
structure SoundCue where
  freq : ℚ
  dur : ℚ
  vol : ℚ
deriving DecidableEq

/-- The whole mutable module state of src/game.js that the simulation tick
reads or writes (rendering state and fps counters are excluded, they are pure
reads of this state). -/
structure World where
  gameState : Mode
  paused : Bool
  muted : Bool
  debug : Bool
  score : ℤ
  wave : ℤ
  screenShakeX : ℚ
  screenShakeY : ℚ
  hitstop : ℚ
  combo : ℤ
  comboTimer : ℚ
  player : Player
  bullets : List Bullet
  enemies : List Enemy
  particles : List Particle
  lastShotTime : ℚ
  enemySpawnTimer : ℚ
  enemySpawnRate : ℚ
  enemiesPerWave : ℤ
  waveBannerTime : ℚ
  lastTime : ℚ
  sounds : List SoundCue
deriving DecidableEq

/-- Environment of the embedding: arena size (canvas css pixels) and oracles
for the transcendental functions and the randomness of the source. -/
structure Env where
  arenaW : ℚ
  arenaH : ℚ
  sqrtQ : ℚ → ℚ
  cosQ : ℚ → ℚ
  sinQ : ℚ → ℚ
  atan2Q : ℚ → ℚ → ℚ
  shakeDX : ℚ → ℚ
  shakeDY : ℚ → ℚ
  mkParticle : ℚ → ℚ → ℕ → Particle
  newEnemy : Enemy

/-- Per tick input snapshot: merged movement key disjunctions
(w or arrowup, and so on), shift variants, fire held (mouse down or space),
mouse world position, and the requestAnimationFrame timestamp in ms. -/
structure Input where
  up : Bool
  down : Bool
  left : Bool
  right : Bool
  dashKey : Bool
  fireHeld : Bool
  aimX : ℚ
  aimY : ℚ
  currentTime : ℚ
deriving DecidableEq

/-- playSound: logged as an appended cue (the source fires audio and returns;
the mute flag only silences the audio device, it does not change the state we
track). -/
def pushSound (f d v : ℚ) (st : World) : World :=
  { st with sounds := ⟨f, d, v⟩ :: st.sounds }

/-- addShake(intensity): both components moved by an oracle delta, standing for
(Math.random() - 0.5) * intensity * 2. -/
def addShake (env : Env) (intensity : ℚ) (st : World) : World :=
  { st with
    screenShakeX := st.screenShakeX + env.shakeDX intensity
    screenShakeY := st.screenShakeY + env.shakeDY intensity }

/-- spawnParticles(x, y, count): pushes count oracle-made particles. -/
def spawnParticles (env : Env) (x y : ℚ) (count : ℕ) (st : World) : World :=
  { st with particles := st.particles ++ (List.range count).map (env.mkParticle x y) }

/-- Horizontal movement component: right minus left, as in the key checks of
Player.update. -/
def inputDX (inp : Input) : ℚ :=
  (if inp.right then 1 else 0) - (if inp.left then 1 else 0)

/-- Vertical movement component: down minus up. -/
def inputDY (inp : Input) : ℚ :=
  (if inp.down then 1 else 0) - (if inp.up then 1 else 0)

/-- Player.update, dash cooldown decrement (first block). -/
def dashCooldownStep (dt : ℚ) (p : Player) : Player :=
  if p.dashCooldown > 0 then { p with dashCooldown := p.dashCooldown - dt } else p

/-- Player.update, dash activation block: on a dash key with no active dash and
cooldown spent, store the direction (normalized input vector, or facing on zero
input), arm the dash and its invulnerability, and emit particles, a shake pulse
and a cue. -/
def dashActivation (env : Env) (inp : Input) (st : World) : World :=
  let p := st.player
  if inp.dashKey = true ∧ p.dashActive = false ∧ p.dashCooldown ≤ 0 then
    let dx := inputDX inp
    let dy := inputDY inp
    let dir : ℚ × ℚ :=
      if dx ≠ 0 ∨ dy ≠ 0 then
        let len := env.sqrtQ (dx * dx + dy * dy)
        (dx / len, dy / len)
      else
        (env.cosQ p.angle, env.sinQ p.angle)
    let p1 := { p with
      dashDirX := dir.1
      dashDirY := dir.2
      dashActive := true
      dashTimer := p.dashDuration
      dashCooldown := p.dashCooldownTime
      invulnerable := p.dashDuration }
    pushSound 400 (2/10) (25/100)
      (addShake env 3 (spawnParticles env p.x p.y 8 { st with player := p1 }))
  else st

/-- Afterimage decay of Player.update and of the hitstop branch: age advances,
alpha fades, entries with alpha ≤ 0 are dropped. -/
def ghostDecay (dt : ℚ) (gs : List Ghost) : List Ghost :=
  (gs.map fun g => { g with age := g.age + dt, alpha := g.alpha - dt * 2 }).filter
    fun g => decide (0 < g.alpha)

/-- Player.update, dash movement block: while dashing, run the dash timer, push
an afterimage (bounded to five, oldest evicted), and either end the dash at
timer expiry or advance along the stored direction; while not dashing, decay
the afterimages. -/
def dashMoveStep (dt : ℚ) (p : Player) : Player :=
  if p.dashActive = true then
    let p1 := { p with dashTimer := p.dashTimer - dt }
    let gs := p1.ghostAfterimages ++ [⟨p1.x, p1.y, p1.angle, 6/10, 0⟩]
    let gs := if gs.length > 5 then gs.tail else gs
    let p2 := { p1 with ghostAfterimages := gs }
    if p2.dashTimer ≤ 0 then { p2 with dashActive := false }
    else { p2 with
      x := p2.x + p2.dashDirX * p2.speed * p2.dashSpeed * dt
      y := p2.y + p2.dashDirY * p2.speed * p2.dashSpeed * dt }
  else { p with ghostAfterimages := ghostDecay dt p.ghostAfterimages }

/-- Recoil decay of Player.update and of the hitstop branch. -/
def recoilStep (dt : ℚ) (p : Player) : Player :=
  if p.recoilOffset > 0 then
    { p with recoilOffset :=
        if p.recoilOffset - dt * 20 < 0 then 0 else p.recoilOffset - dt * 20 }
  else p

/-- Player.update, normal movement block: outside a dash, a nonzero combined
input vector is normalized and applied at speed · dt; a zero vector is skipped
(no normalization is attempted). -/
def moveInput (env : Env) (inp : Input) (dt : ℚ) (p : Player) : Player :=
  if p.dashActive = false then
    let dx := inputDX inp
    let dy := inputDY inp
    if dx ≠ 0 ∨ dy ≠ 0 then
      let len := env.sqrtQ (dx * dx + dy * dy)
      { p with x := p.x + dx / len * p.speed * dt, y := p.y + dy / len * p.speed * dt }
    else p
  else p

/-- Player.update, bounds clamp. -/
def clampStep (env : Env) (p : Player) : Player :=
  { p with
    x := max p.radius (min (env.arenaW - p.radius) p.x)
    y := max p.radius (min (env.arenaH - p.radius) p.y) }

/-- Player.update, aim at mouse. -/
def aimStep (env : Env) (inp : Input) (p : Player) : Player :=
  { p with angle := env.atan2Q (inp.aimY - p.y) (inp.aimX - p.x) }

/-- Player.update, invulnerability decrement: runs only with a positive timer
and no active dash. -/
def invulnStep (dt : ℚ) (p : Player) : Player :=
  if p.invulnerable > 0 ∧ p.dashActive = false then
    { p with invulnerable := p.invulnerable - dt }
  else p

/-- Player.update(dt), in source statement order. -/
def playerUpdate (env : Env) (inp : Input) (dt : ℚ) (st : World) : World :=
  let st1 := dashActivation env inp { st with player := dashCooldownStep dt st.player }
  let p := st1.player
  let p := dashMoveStep dt p
  let p := recoilStep dt p
  let p := moveInput env inp dt p
  let p := clampStep env p
  let p := aimStep env inp p
  let p := invulnStep dt p
  { st1 with player := p }

/-- Player.takeDamage(amount): no-op returning false while invulnerable or
dashing; otherwise subtract hp, rearm invulnerability, emit shake, hit-stop and
a cue, and on hp ≤ 0 clamp hp to 0, emit the death cue and return true. -/
def takeDamage (amount : ℚ) (env : Env) (st : World) : Bool × World :=
  let p := st.player
  if p.invulnerable > 0 ∨ p.dashActive = true then (false, st)
  else
    let p1 := { p with hp := p.hp - amount, invulnerable := p.invulnerableTime }
    let st1 := { st with player := p1 }
    let st1 := addShake env 6 st1
    let st1 := { st1 with hitstop := 3/100 }
    let st1 := pushSound 150 (8/100) (4/10) st1
    if p1.hp ≤ 0 then
      (true, pushSound 80 (4/10) (5/10) { st1 with player := { p1 with hp := 0 } })
    else (false, st1)

/-- Bullet-enemy overlap: squared center distance below the squared radius sum
(equivalent to the sqrt comparison of the source, radii being positive). -/
def collides (b : Bullet) (e : Enemy) : Prop :=
  (b.x - e.x) * (b.x - e.x) + (b.y - e.y) * (b.y - e.y) <
    (b.radius + e.radius) * (b.radius + e.radius)

instance (b : Bullet) (e : Enemy) : Decidable (collides b e) := by
  unfold collides; infer_instance

/-- Enemy-player overlap, squared form of the second pass test. -/
def playerCollides (p : Player) (e : Enemy) : Prop :=
  (e.x - p.x) * (e.x - p.x) + (e.y - p.y) * (e.y - p.y) <
    (e.radius + p.radius) * (e.radius + p.radius)

instance (p : Player) (e : Enemy) : Decidable (playerCollides p e) := by
  unfold playerCollides; infer_instance

/-- Inner loop of the Bullet and Enemy pass: the source scans enemy indices
from the last down to 0 and breaks at the first overlap, so the overlapping
enemy with the largest index wins; this returns that enemy and the list with
it removed. -/
def findHitRev (b : Bullet) : List Enemy → Option (Enemy × List Enemy)
  | [] => none
  | e :: rest =>
    match findHitRev b rest with
    | some (hit, rest2) => some (hit, e :: rest2)
    | none => if collides b e then some (e, rest) else none

/-- State mutation of one resolved bullet-enemy hit (the removal of the pair
is done by the caller): particle burst at the enemy, combo up by one, combo
timer rearmed, score up by 10 times the new combo, hit-stop and shake pulses,
impact cue. The hitFlash write of the source lands on the enemy it removes on
the same lines and has no further effect. -/
def applyBulletHit (env : Env) (e : Enemy) (st : World) : World :=
  let st1 := spawnParticles env e.x e.y 15 st
  let combo2 := st1.combo + 1
  let st1 := { st1 with
    combo := combo2
    comboTimer := comboResetTime
    score := st1.score + 10 * combo2
    hitstop := 5/100 }
  pushSound 200 (15/100) (3/10) (addShake env 12 st1)

/-- Outer loop of the Bullet and Enemy pass: the source scans bullet indices
from the last down to 0, so the bullet at the head of the list is processed
last; a bullet that finds an overlap is consumed together with that enemy,
any other bullet survives. -/
def bulletsPassAux (env : Env) : List Bullet → World → List Bullet × World
  | [], st => ([], st)
  | b :: rest, st =>
    let step := bulletsPassAux env rest st
    match findHitRev b step.2.enemies with
    | some (e, remaining) =>
      (step.1, applyBulletHit env e { step.2 with enemies := remaining })
    | none => (b :: step.1, step.2)

/-- First pass of checkCollisions. -/
def bulletsPass (env : Env) (st : World) : World :=
  let step := bulletsPassAux env st.bullets { st with bullets := [] }
  { step.2 with bullets := step.1 }

/-- State mutation of one enemy-player contact (enemy removal by the caller):
damage 10 through takeDamage, on death a burst at the player and gameOver,
always a burst at the enemy, combo and its timer cleared, flat 10 score, shake
and hit-stop pulses and the damage cue. -/
def applyEnemyPlayerHit (env : Env) (e : Enemy) (st : World) : World :=
  let r := takeDamage 10 env st
  let st1 := r.2
  let st1 :=
    if r.1 = true then
      { spawnParticles env st1.player.x st1.player.y 30 st1 with gameState := Mode.gameOver }
    else st1
  let st1 := spawnParticles env e.x e.y 15 st1
  let st1 := { st1 with combo := 0, comboTimer := 0, score := st1.score + 10 }
  let st1 := addShake env 8 st1
  let st1 := { st1 with hitstop := 3/100 }
  pushSound 150 (8/100) (4/10) st1

/-- Second pass of checkCollisions, scanning enemy indices from the last down
to 0 with no break: every overlapping enemy is resolved. -/
def enemiesPassAux (env : Env) : List Enemy → World → List Enemy × World
  | [], st => ([], st)
  | e :: rest, st =>
    let step := enemiesPassAux env rest st
    if playerCollides step.2.player e then (step.1, applyEnemyPlayerHit env e step.2)
    else (e :: step.1, step.2)

/-- Second pass of checkCollisions. -/
def enemiesPass (env : Env) (st : World) : World :=
  let step := enemiesPassAux env st.enemies { st with enemies := [] }
  { step.2 with enemies := step.1 }

/-- checkCollisions: bullets against enemies, then enemies against the player. -/
def checkCollisions (env : Env) (st : World) : World :=
  enemiesPass env (bulletsPass env st)

/-- new Player(): the constructor values of class Player; the spawn position is
the arena center (canvas.width / (2 dpr) equals half the css width). -/
def newPlayer (env : Env) : Player :=
  { x := env.arenaW / 2
    y := env.arenaH / 2
    radius := 15
    speed := 300
    angle := 0
    hp := 100
    maxHp := 100
    invulnerable := 0
    invulnerableTime := 7/10
    dashActive := false
    dashTimer := 0
    dashDuration := 2/10
    dashCooldown := 0
    dashCooldownTime := 2
    dashSpeed := 3
    dashDirX := 0
    dashDirY := 0
    ghostAfterimages := []
    recoilOffset := 0 }

/-- restart(): exactly the assignments of the source function, in particular
enemySpawnRate is NOT among them and keeps its current value. -/
def restart (env : Env) (st : World) : World :=
  { st with
    player := newPlayer env
    bullets := []
    enemies := []
    particles := []
    score := 0
    wave := 1
    enemySpawnTimer := 0
    enemiesPerWave := 5
    waveBannerTime := 0
    gameState := Mode.playing
    paused := false
    screenShakeX := 0
    screenShakeY := 0
    hitstop := 0
    combo := 0
    comboTimer := 0
    lastShotTime := 0 }

/-- The module-level initial state of src/game.js (lastTime is the load
timestamp, taken as 0; the sound log starts empty). -/
def initWorld (env : Env) : World :=
  { gameState := Mode.playing
    paused := false
    muted := false
    debug := false
    score := 0
    wave := 1
    screenShakeX := 0
    screenShakeY := 0
    hitstop := 0
    combo := 0
    comboTimer := 0
    player := newPlayer env
    bullets := []
    enemies := []
    particles := []
    lastShotTime := 0
    enemySpawnTimer := 0
    enemySpawnRate := 2
    enemiesPerWave := 5
    waveBannerTime := 0
    lastTime := 0
    sounds := [] }

/-- Bullet.update(dt). -/
def bulletUpdate (env : Env) (dt : ℚ) (b : Bullet) : Bullet :=
  { b with
    prevX := b.x
    prevY := b.y
    x := b.x + env.cosQ b.angle * b.speed * dt
    y := b.y + env.sinQ b.angle * b.speed * dt
    age := b.age + dt }

/-- Bullet.isOffscreen(). -/
def bulletOffscreen (env : Env) (b : Bullet) : Prop :=
  b.x < -50 ∨ b.x > env.arenaW + 50 ∨ b.y < -50 ∨ b.y > env.arenaH + 50 ∨
    b.age ≥ b.lifetime

instance (env : Env) (b : Bullet) : Decidable (bulletOffscreen env b) := by
  unfold bulletOffscreen; infer_instance

/-- Enemy.update(dt): hit flash decay, then pursuit of the live player
position, guarded by dist > 0. -/
def enemyUpdate (env : Env) (dt : ℚ) (pl : Player) (e : Enemy) : Enemy :=
  let e1 := if e.hitFlash > 0 then { e with hitFlash := e.hitFlash - dt } else e
  let dx := pl.x - e1.x
  let dy := pl.y - e1.y
  let dist := env.sqrtQ (dx * dx + dy * dy)
  if dist > 0 then
    { e1 with
      x := e1.x + dx / dist * e1.speed * dt
      y := e1.y + dy / dist * e1.speed * dt }
  else e1

/-- Particle.update(dt). -/
def particleUpdate (dt : ℚ) (p : Particle) : Particle :=
  { p with
    x := p.x + p.vx * dt
    y := p.y + p.vy * dt
    vx := p.vx * (95/100)
    vy := p.vy * (95/100)
    age := p.age + dt }

/-- Particle.isDead(). -/
def particleDead (p : Particle) : Prop := p.age ≥ p.lifetime

instance (p : Particle) : Decidable (particleDead p) := by
  unfold particleDead; infer_instance

/-- The frame delta of gameLoop: elapsed ms over 1000, clamped at 0.033. -/
def dtOf (st : World) (currentTime : ℚ) : ℚ :=
  min ((currentTime - st.lastTime) / 1000) (33/1000)

/-- The hitstop branch of gameLoop: run the hit-stop timer down, decay shake,
enemy hit flashes, player recoil and afterimages, and return before any
gameplay update. -/
def hitstopStep (dt : ℚ) (st : World) : World :=
  let es := st.enemies.map (fun e =>
    if e.hitFlash > 0 then { e with hitFlash := e.hitFlash - dt } else e)
  let st1 := { st with
    hitstop := st.hitstop - dt
    screenShakeX := st.screenShakeX * shakeDecay
    screenShakeY := st.screenShakeY * shakeDecay
    enemies := es }
  let p := recoilStep dt st1.player
  { st1 with player := { p with ghostAfterimages := ghostDecay dt p.ghostAfterimages } }

/-- Shake decay of a normal tick. -/
def shakeStep (st : World) : World :=
  { st with
    screenShakeX := st.screenShakeX * shakeDecay
    screenShakeY := st.screenShakeY * shakeDecay }

/-- Combo timer block of gameLoop: a positive timer is decremented and, on
crossing zero, clears the combo counter. -/
def comboStep (dt : ℚ) (st : World) : World :=
  if st.comboTimer > 0 then
    let t := st.comboTimer - dt
    { st with comboTimer := t, combo := if t ≤ 0 then 0 else st.combo }
  else st

/-- Shooting block of gameLoop: with fire held and the absolute time gate
now - lastShotTime ≥ shootCooldown, push a bullet at the muzzle, stamp
lastShotTime with now, set the recoil and emit the shot cue. -/
def shootStep (env : Env) (inp : Input) (st : World) : World :=
  let now := inp.currentTime / 1000
  if inp.fireHeld = true ∧ now - st.lastShotTime ≥ shootCooldown then
    let p := st.player
    let bx := p.x + env.cosQ p.angle * (p.radius + 5)
    let byv := p.y + env.sinQ p.angle * (p.radius + 5)
    pushSound 800 (5/100) (2/10)
      { st with
        bullets := st.bullets ++
          [{ x := bx, y := byv, prevX := bx, prevY := byv, angle := p.angle,
             speed := 600, radius := 4, lifetime := 2, age := 0 }]
        lastShotTime := now
        player := { p with recoilOffset := 3 } }
  else st

/-- Bullet update and expiry filter of gameLoop. -/
def bulletsStep (env : Env) (dt : ℚ) (st : World) : World :=
  let bs := (st.bullets.map (bulletUpdate env dt)).filter
    (fun b => ! decide (bulletOffscreen env b))
  { st with bullets := bs }

/-- Spawn block of gameLoop: run the spawn timer down, then, with no banner, a
spent timer and the population below target, push one oracle enemy and rearm
the timer with the current spawn rate. -/
def spawnStep (env : Env) (dt : ℚ) (st : World) : World :=
  let st1 := { st with enemySpawnTimer := st.enemySpawnTimer - dt }
  if st1.waveBannerTime ≤ 0 ∧ st1.enemySpawnTimer ≤ 0 ∧
      (st1.enemies.length : ℤ) < st1.enemiesPerWave then
    { st1 with enemies := st1.enemies ++ [env.newEnemy], enemySpawnTimer := st1.enemySpawnRate }
  else st1

/-- Enemy update map of gameLoop. -/
def enemiesStep (env : Env) (dt : ℚ) (st : World) : World :=
  { st with enemies := st.enemies.map (enemyUpdate env dt st.player) }

/-- Particle update and expiry filter of gameLoop. -/
def particlesStep (dt : ℚ) (st : World) : World :=
  let ps := (st.particles.map (particleUpdate dt)).filter
    (fun p => ! decide (particleDead p))
  { st with particles := ps }

/-- Wave block of gameLoop: a positive banner timer only runs down; otherwise,
with no enemies and a spent spawn timer, advance the wave, recompute the
target population and spawn rate from the new wave, rearm the banner and emit
the wave cue. -/
def waveStep (dt : ℚ) (st : World) : World :=
  if st.waveBannerTime > 0 then { st with waveBannerTime := st.waveBannerTime - dt }
  else if st.enemies = [] ∧ st.enemySpawnTimer ≤ 0 then
    let w := st.wave + 1
    pushSound 500 (3/10) (5/10)
      { st with
        wave := w
        enemiesPerWave := 5 + w * 2
        enemySpawnRate := max (1/2) (2 - (w : ℚ) * (1/10))
        waveBannerTime := waveBannerDuration }
  else st

/-- The gameplay part of one tick in the playing unpaused non-hitstop case, in
source statement order. -/
def normalStep (env : Env) (inp : Input) (dt : ℚ) (st : World) : World :=
  checkCollisions env
    (waveStep dt
      (particlesStep dt
        (enemiesStep env dt
          (spawnStep env dt
            (bulletsStep env dt
              (shootStep env inp
                (playerUpdate env inp dt
                  (comboStep dt
                    (shakeStep st)))))))))

/-- One invocation of gameLoop without its rendering: compute dt, stamp
lastTime, and in the playing unpaused case run either the hitstop branch or
the normal updates. -/
def tick (env : Env) (inp : Input) (st : World) : World :=
  let dt := dtOf st inp.currentTime
  let st1 := { st with lastTime := inp.currentTime }
  if st1.gameState = Mode.playing ∧ st1.paused = false then
    if st1.hitstop > 0 then hitstopStep dt st1
    else normalStep env inp dt st1
  else st1

/-- A sequence of ticks. -/
def runTicks (env : Env) (inps : List Input) (st : World) : World :=
  inps.foldl (fun s i => tick env i s) st

/-- Inner scan modelled from the spec words of the original claim C7: for each
bullet the FIRST overlapping enemy in insertion order wins. -/
def firstHitIns (b : Bullet) : List Enemy → Option (Enemy × List Enemy)
  | [] => none
  | e :: rest =>
    if collides b e then some (e, rest)
    else
      match firstHitIns b rest with
      | some (hit, rest2) => some (hit, e :: rest2)
      | none => none

/-- Pass modelled from the spec words of the original claim C7: bullets in
insertion order (head first), each scanning enemies in insertion order, first
match removing exactly that pair with the usual hit effects. -/
def bulletsPassInsAux (env : Env) : List Bullet → World → List Bullet × World
  | [], st => ([], st)
  | b :: rest, st =>
    match firstHitIns b st.enemies with
    | some (e, remaining) =>
      bulletsPassInsAux env rest (applyBulletHit env e { st with enemies := remaining })
    | none =>
      let step := bulletsPassInsAux env rest st
      (b :: step.1, step.2)

/-- Insertion-order first-match resolution, spec model of claim C7 as stated. -/
def bulletsPassInsertion (env : Env) (st : World) : World :=
  let step := bulletsPassInsAux env st.bullets { st with bullets := [] }
  { step.2 with bullets := step.1 }

/-- Spec model of the amended claim C7: newest-first first-match resolution,
realized by reversing the bullet and enemy lists, running the insertion-order
model, and reversing back. -/
def bulletsPassNewestFirst (env : Env) (st : World) : World :=
  let step := bulletsPassInsAux env st.bullets.reverse
    { st with bullets := [], enemies := st.enemies.reverse }
  { step.2 with bullets := step.1.reverse, enemies := step.2.enemies.reverse }

/-- The hp and combo invariant of the spec. -/
def Inv (st : World) : Prop :=
  0 ≤ st.player.hp ∧ st.player.hp ≤ st.player.maxHp ∧ 0 ≤ st.combo

instance (st : World) : Decidable (Inv st) := by
  unfold Inv; infer_instance

/-- Concrete environment for witnesses and counterexamples: a 1000 x 800
arena, the identity in place of sqrt, zero oracles for the other
transcendentals and for shake, a fixed particle, and a fixed stationary spawn
far from the arena center. -/
def sampleEnv : Env :=
  { arenaW := 1000
    arenaH := 800
    sqrtQ := fun q => q
    cosQ := fun _ => 0
    sinQ := fun _ => 0
    atan2Q := fun _ _ => 0
    shakeDX := fun _ => 0
    shakeDY := fun _ => 0
    mkParticle := fun x y _ =>
      { x := x, y := y, vx := 0, vy := 0, lifetime := 1/2, age := 0, size := 2 }
    newEnemy := { x := -100, y := 0, radius := 12, speed := 0, hp := 1, hitFlash := 0 } }

/-- An idle input snapshot at 50/3 ms, giving dt = 1/60 from lastTime 0. -/
def idleInput : Input :=
  { up := false, down := false, left := false, right := false, dashKey := false,
    fireHeld := false, aimX := 0, aimY := 0, currentTime := 50/3 }

/-- Fire-held input snapshot at a given timestamp (ms). -/
def fireInput (t : ℚ) : Input :=
  { idleInput with fireHeld := true, currentTime := t }

/-- Start state of the firing scenario: the initial state with a long wave
banner, which suppresses enemy spawns (the shooting block does not read the
banner, so the cadence is unaffected) and keeps the scenario free of
collisions. -/
def fireWorld : World :=
  { initWorld sampleEnv with waveBannerTime := 1000 }

/-- Firing scenario, fire held throughout: states after the ticks at
t = 0, 0.15, ..., 0.90 and a final tick at t = 1.0 (timestamps in ms). -/
def fireS1 : World := tick sampleEnv (fireInput 0) fireWorld

/-- Firing scenario after the tick at t = 0.15. -/
def fireS2 : World := tick sampleEnv (fireInput 150) fireS1

/-- Firing scenario after the tick at t = 0.30. -/
def fireS3 : World := tick sampleEnv (fireInput 300) fireS2

/-- Firing scenario after the tick at t = 0.45. -/
def fireS4 : World := tick sampleEnv (fireInput 450) fireS3

/-- Firing scenario after the tick at t = 0.60. -/
def fireS5 : World := tick sampleEnv (fireInput 600) fireS4

/-- Firing scenario after the tick at t = 0.75. -/
def fireS6 : World := tick sampleEnv (fireInput 750) fireS5

/-- Firing scenario after the tick at t = 0.90. -/
def fireS7 : World := tick sampleEnv (fireInput 900) fireS6

/-- Firing scenario after the final tick at t = 1.0. -/
def fireS8 : World := tick sampleEnv (fireInput 1000) fireS7

/-- Witness state: the initial state with an active dash in progress. -/
def dashedWorld : World :=
  { initWorld sampleEnv with
    player := { newPlayer sampleEnv with dashActive := true, dashTimer := 2/10 } }

/-- Bullet at (10, 0); overlaps both counterexample enemies. -/
def cexBulletA : Bullet :=
  { x := 10, y := 0, prevX := 10, prevY := 0, angle := 0, speed := 600,
    radius := 4, lifetime := 2, age := 0 }

/-- Bullet at (-10, 0); overlaps only the enemy at the origin. -/
def cexBulletB : Bullet :=
  { x := -10, y := 0, prevX := -10, prevY := 0, angle := 0, speed := 600,
    radius := 4, lifetime := 2, age := 0 }

/-- Enemy at the origin. -/
def cexEnemyA : Enemy :=
  { x := 0, y := 0, radius := 12, speed := 100, hp := 1, hitFlash := 0 }

/-- Enemy at (20, 0). -/
def cexEnemyB : Enemy :=
  { x := 20, y := 0, radius := 12, speed := 100, hp := 1, hitFlash := 0 }

/-- Simultaneous-overlap configuration: the first bullet overlaps both
enemies, the second bullet overlaps only the first enemy. -/
def overlapWorld : World :=
  { initWorld sampleEnv with
    bullets := [cexBulletA, cexBulletB], enemies := [cexEnemyA, cexEnemyB] }

/-- Witness state for a single bullet-enemy hit, with nonzero combo and score. -/
def hitWorld1 : World :=
  { initWorld sampleEnv with
    bullets := [cexBulletA], enemies := [cexEnemyA], combo := 3, score := 50 }

/-- Witness state for the hitstop branch: positive hit-stop, one enemy with a
running hit flash. -/
def hitstopWorld : World :=
  { initWorld sampleEnv with
    hitstop := 5/100,
    enemies := [{ sampleEnv.newEnemy with hitFlash := 8/100 }] }

/-- Witness state with a spawn rate away from its initial value. -/
def spawnRateHalfWorld : World :=
  { initWorld sampleEnv with enemySpawnRate := 1/2 }

/-- C3: a damage call on an invulnerable or dashing player returns false and
returns the state untouched: no hp change, no invulnerability rearm, no shake,
no hit-stop, no sound cue. -/
theorem C3_invulnerable_damage_noop (amount : ℚ) (env : Env) (st : World)
    (h : 0 < st.player.invulnerable ∨ st.player.dashActive = true) :
    takeDamage amount env st = (false, st) := by
  unfold takeDamage
  rw [if_pos h]

theorem C3_invulnerable_damage_noop_witness :
    takeDamage 10 sampleEnv dashedWorld = (false, dashedWorld) :=
  C3_invulnerable_damage_noop 10 sampleEnv dashedWorld (Or.inr rfl)

/-- C5: the wave-advance conditions of the claim hold at the start of a tick
of the initial state (banner timer 0, no enemies, spawn timer 0), yet the tick
leaves the wave counter at 1 and instead spawns an enemy and rearms the spawn
timer: the spawn block runs before the wave check and re-fills the enemy list
and the spawn timer, so the wave-increment branch cannot fire. -/
theorem C5_wave_stuck_at_spawn :
    (initWorld sampleEnv).waveBannerTime ≤ 0 ∧
    (initWorld sampleEnv).enemies = [] ∧
    (initWorld sampleEnv).enemySpawnTimer ≤ 0 ∧
    (tick sampleEnv idleInput (initWorld sampleEnv)).wave = (initWorld sampleEnv).wave ∧
    (tick sampleEnv idleInput (initWorld sampleEnv)).enemies.length = 1 ∧
    (tick sampleEnv idleInput (initWorld sampleEnv)).enemySpawnTimer = 2 := by
  norm_num [tick, dtOf, hitstopStep, normalStep, shakeStep, comboStep, playerUpdate,
    dashCooldownStep, dashActivation, dashMoveStep, ghostDecay, recoilStep, moveInput,
    clampStep, aimStep, invulnStep, shootStep, bulletsStep, bulletUpdate, bulletOffscreen,
    spawnStep, enemiesStep, enemyUpdate, particlesStep, particleUpdate, particleDead,
    waveStep, checkCollisions, bulletsPass, bulletsPassAux, enemiesPass, enemiesPassAux,
    findHitRev, applyBulletHit, applyEnemyPlayerHit, takeDamage, collides, playerCollides,
    pushSound, addShake, spawnParticles, initWorld, newPlayer, sampleEnv, idleInput,
    inputDX, inputDY, comboResetTime, shakeDecay, shootCooldown, waveBannerDuration]

/-- C6 counterexample: restart does not touch enemySpawnRate, so a state whose
spawn rate is 1/2 keeps that value through restart instead of returning to the
initial value 2 that the claim demands. -/
theorem C6_spawn_rate_counterexample :
    (restart sampleEnv spawnRateHalfWorld).enemySpawnRate = 1/2 ∧
    (initWorld sampleEnv).enemySpawnRate = 2 ∧
    (restart sampleEnv spawnRateHalfWorld).enemySpawnRate ≠
      (initWorld sampleEnv).enemySpawnRate := by
  norm_num [restart, spawnRateHalfWorld, initWorld]

/-- C6 amended: restart resets score, wave, the three collections, the player
(full hp), combo and its timer, the spawn timer, the target population, the
banner timer, hit-stop, shake, lastShotTime and the game state, but it leaves
enemySpawnRate at its current value. -/
theorem C6_restart_amended (env : Env) (st : World) :
    (restart env st).score = 0 ∧
    (restart env st).wave = 1 ∧
    (restart env st).bullets = [] ∧
    (restart env st).enemies = [] ∧
    (restart env st).particles = [] ∧
    (restart env st).player = newPlayer env ∧
    (restart env st).player.hp = (restart env st).player.maxHp ∧
    (restart env st).combo = 0 ∧
    (restart env st).comboTimer = 0 ∧
    (restart env st).enemySpawnTimer = 0 ∧
    (restart env st).enemiesPerWave = 5 ∧
    (restart env st).waveBannerTime = 0 ∧
    (restart env st).hitstop = 0 ∧
    (restart env st).screenShakeX = 0 ∧
    (restart env st).screenShakeY = 0 ∧
    (restart env st).lastShotTime = 0 ∧
    (restart env st).gameState = Mode.playing ∧
    (restart env st).paused = false ∧
    (restart env st).enemySpawnRate = st.enemySpawnRate :=
  ⟨rfl, rfl, rfl, rfl, rfl, rfl, rfl, rfl, rfl, rfl, rfl, rfl, rfl, rfl, rfl,
   rfl, rfl, rfl, rfl⟩

/-- C7 counterexample: in the simultaneous-overlap configuration the source
pass (which scans both arrays from the end) resolves two pairs for combo 2 and
score 30, while insertion-order first-match resolution resolves one pair for
combo 1 and score 10, so the combo and score outcomes of the code are not
those of insertion-order resolution. -/
theorem C7_order_counterexample :
    (bulletsPass sampleEnv overlapWorld).combo = 2 ∧
    (bulletsPass sampleEnv overlapWorld).score = 30 ∧
    (bulletsPassInsertion sampleEnv overlapWorld).combo = 1 ∧
    (bulletsPassInsertion sampleEnv overlapWorld).score = 10 ∧
    (bulletsPass sampleEnv overlapWorld).combo ≠
      (bulletsPassInsertion sampleEnv overlapWorld).combo ∧
    (bulletsPass sampleEnv overlapWorld).score ≠
      (bulletsPassInsertion sampleEnv overlapWorld).score := by
  norm_num [bulletsPass, bulletsPassAux, bulletsPassInsertion, bulletsPassInsAux,
    findHitRev, firstHitIns, applyBulletHit, collides, pushSound, addShake,
    spawnParticles, overlapWorld, cexBulletA, cexBulletB, cexEnemyA, cexEnemyB,
    initWorld, newPlayer, sampleEnv, comboResetTime]

/-- Witness enemy located exactly at the player spawn position. -/
def atPlayerEnemy : Enemy :=
  { x := (newPlayer sampleEnv).x, y := (newPlayer sampleEnv).y,
    radius := 12, speed := 100, hp := 1, hitFlash := 0 }

/-- C9: normalization guards. A zero combined input vector leaves the player
position untouched (the normalization branch is skipped), an enemy exactly at
the player position does not move, and whenever either normalization branch is
entered its divisor env.sqrtQ applied to the squared length is positive (the
squared length is a positive rational), provided the square root oracle is
positive on positives, as Math.sqrt is. -/
theorem C9_zero_vector_guards (env : Env) (inp : Input) (dt : ℚ) (p pl : Player)
    (e : Enemy)
    (hsq : ∀ q : ℚ, 0 < q → 0 < env.sqrtQ q)
    (h0 : inputDX inp = 0) (h1 : inputDY inp = 0)
    (hex : e.x = pl.x) (hey : e.y = pl.y) :
    moveInput env inp dt p = p ∧
    (enemyUpdate env dt pl e).x = e.x ∧
    (enemyUpdate env dt pl e).y = e.y ∧
    (∀ inp2 : Input, (inputDX inp2 ≠ 0 ∨ inputDY inp2 ≠ 0) →
      0 < env.sqrtQ (inputDX inp2 * inputDX inp2 + inputDY inp2 * inputDY inp2)) ∧
    (∀ e2 : Enemy, (e2.x ≠ pl.x ∨ e2.y ≠ pl.y) →
      0 < env.sqrtQ ((pl.x - e2.x) * (pl.x - e2.x) + (pl.y - e2.y) * (pl.y - e2.y))) := by
  refine ⟨?_, ?_, ?_, ?_, ?_⟩
  · unfold moveInput
    rw [h0, h1]
    simp
  · unfold enemyUpdate
    rw [← hex, ← hey]
    by_cases hf : e.hitFlash > 0 <;> simp [hf, sub_self]
  · unfold enemyUpdate
    rw [← hex, ← hey]
    by_cases hf : e.hitFlash > 0 <;> simp [hf, sub_self]
  · intro inp2 hne
    rcases hne with h | h
    · exact hsq _ (add_pos_of_pos_of_nonneg (mul_self_pos.mpr h) (mul_self_nonneg _))
    · exact hsq _ (add_pos_of_nonneg_of_pos (mul_self_nonneg _) (mul_self_pos.mpr h))
  · intro e2 hne
    rcases hne with h | h
    · exact hsq _ (add_pos_of_pos_of_nonneg
        (mul_self_pos.mpr (sub_ne_zero.mpr (Ne.symm h))) (mul_self_nonneg _))
    · exact hsq _ (add_pos_of_nonneg_of_pos (mul_self_nonneg _)
        (mul_self_pos.mpr (sub_ne_zero.mpr (Ne.symm h))))

theorem C9_zero_vector_guards_witness :
    moveInput sampleEnv idleInput (1/60) (newPlayer sampleEnv) = newPlayer sampleEnv ∧
    (enemyUpdate sampleEnv (1/60) (newPlayer sampleEnv) atPlayerEnemy).x = atPlayerEnemy.x :=
  ⟨(C9_zero_vector_guards sampleEnv idleInput (1/60) (newPlayer sampleEnv)
      (newPlayer sampleEnv) atPlayerEnemy (fun _ hq => hq)
      (by simp [inputDX, idleInput]) (by simp [inputDY, idleInput]) rfl rfl).1,
   (C9_zero_vector_guards sampleEnv idleInput (1/60) (newPlayer sampleEnv)
      (newPlayer sampleEnv) atPlayerEnemy (fun _ hq => hq)
      (by simp [inputDX, idleInput]) (by simp [inputDY, idleInput]) rfl rfl).2.1⟩

lemma dashCooldownStep_invuln (dt : ℚ) (p : Player) :
    (dashCooldownStep dt p).invulnerable = p.invulnerable := by
  unfold dashCooldownStep; split <;> rfl

lemma dashCooldownStep_dashActive (dt : ℚ) (p : Player) :
    (dashCooldownStep dt p).dashActive = p.dashActive := by
  unfold dashCooldownStep; split <;> rfl

lemma dashCooldownStep_dashTimer (dt : ℚ) (p : Player) :
    (dashCooldownStep dt p).dashTimer = p.dashTimer := by
  unfold dashCooldownStep; split <;> rfl

lemma dashActivation_of_active (env : Env) (inp : Input) (st : World)
    (h : st.player.dashActive = true) : dashActivation env inp st = st := by
  unfold dashActivation
  rw [if_neg]
  rintro ⟨-, h2, -⟩
  rw [h] at h2
  exact Bool.noConfusion h2

lemma dashMoveStep_invuln (dt : ℚ) (p : Player) :
    (dashMoveStep dt p).invulnerable = p.invulnerable := by
  simp only [dashMoveStep]
  split_ifs <;> rfl

lemma recoilStep_invuln (dt : ℚ) (p : Player) :
    (recoilStep dt p).invulnerable = p.invulnerable := by
  unfold recoilStep; split <;> rfl

lemma recoilStep_dashActive (dt : ℚ) (p : Player) :
    (recoilStep dt p).dashActive = p.dashActive := by
  unfold recoilStep; split <;> rfl

lemma moveInput_invuln (env : Env) (inp : Input) (dt : ℚ) (p : Player) :
    (moveInput env inp dt p).invulnerable = p.invulnerable := by
  simp only [moveInput]
  split_ifs <;> rfl

lemma moveInput_dashActive (env : Env) (inp : Input) (dt : ℚ) (p : Player) :
    (moveInput env inp dt p).dashActive = p.dashActive := by
  simp only [moveInput]
  split_ifs <;> rfl

lemma dashMoveStep_active_continue (dt : ℚ) (p : Player)
    (h : p.dashActive = true) (ht : 0 < p.dashTimer - dt) :
    (dashMoveStep dt p).dashActive = true := by
  have hc : ¬ (p.dashTimer - dt ≤ 0) := not_le.mpr ht
  simp [dashMoveStep, h, hc]

lemma dashMoveStep_active_stop (dt : ℚ) (p : Player)
    (h : p.dashActive = true) (ht : p.dashTimer - dt ≤ 0) :
    (dashMoveStep dt p).dashActive = false := by
  simp [dashMoveStep, h, ht]

/-- C10: while a dash is active at the start of Player.update, every tick exit
that still has dashActive true keeps the invulnerability timer identical; a
tick with more than dt left on the dash timer keeps both the dash and the
timer; and any change of the timer can only happen on a tick whose exit state
has dashActive false, and is then a decrement by exactly dt. -/
theorem C10_dash_invuln_frozen (env : Env) (inp : Input) (dt : ℚ) (st : World)
    (h : st.player.dashActive = true) :
    ((playerUpdate env inp dt st).player.dashActive = true →
      (playerUpdate env inp dt st).player.invulnerable = st.player.invulnerable) ∧
    ((playerUpdate env inp dt st).player.invulnerable ≠ st.player.invulnerable →
      (playerUpdate env inp dt st).player.dashActive = false ∧
      (playerUpdate env inp dt st).player.invulnerable = st.player.invulnerable - dt) ∧
    (0 < st.player.dashTimer - dt →
      (playerUpdate env inp dt st).player.dashActive = true ∧
      (playerUpdate env inp dt st).player.invulnerable = st.player.invulnerable) := by
  have hq : (dashCooldownStep dt st.player).dashActive = true := by
    rw [dashCooldownStep_dashActive]; exact h
  have hDA : dashActivation env inp { st with player := dashCooldownStep dt st.player } =
      { st with player := dashCooldownStep dt st.player } :=
    dashActivation_of_active env inp _ hq
  have hplayer : (playerUpdate env inp dt st).player =
      invulnStep dt (aimStep env inp (clampStep env (moveInput env inp dt
        (recoilStep dt (dashMoveStep dt (dashCooldownStep dt st.player)))))) := by
    unfold playerUpdate
    rw [hDA]
  set q := dashCooldownStep dt st.player with hqdef
  set r := dashMoveStep dt q with hrdef
  set c := aimStep env inp (clampStep env (moveInput env inp dt (recoilStep dt r)))
    with hcdef
  have hchain : c.invulnerable = st.player.invulnerable := by
    rw [hcdef]
    show (moveInput env inp dt (recoilStep dt r)).invulnerable = _
    rw [moveInput_invuln, recoilStep_invuln, hrdef, dashMoveStep_invuln,
      hqdef, dashCooldownStep_invuln]
  have hchainA : c.dashActive = r.dashActive := by
    rw [hcdef]
    show (moveInput env inp dt (recoilStep dt r)).dashActive = _
    rw [moveInput_dashActive, recoilStep_dashActive]
  by_cases ht : 0 < q.dashTimer - dt
  · have hrA : r.dashActive = true := dashMoveStep_active_continue dt q hq ht
    have hfinal : (playerUpdate env inp dt st).player.invulnerable =
        st.player.invulnerable := by
      rw [hplayer]
      show (invulnStep dt c).invulnerable = _
      unfold invulnStep
      rw [if_neg]
      · exact hchain
      · rintro ⟨-, hfa⟩
        rw [hchainA, hrA] at hfa
        exact Bool.noConfusion hfa
    have hfinalA : (playerUpdate env inp dt st).player.dashActive = true := by
      rw [hplayer]
      show (invulnStep dt c).dashActive = _
      unfold invulnStep
      split <;> rw [hchainA, hrA]
    exact ⟨fun _ => hfinal, fun hne => absurd hfinal hne, fun _ => ⟨hfinalA, hfinal⟩⟩
  · have hrA : r.dashActive = false :=
      dashMoveStep_active_stop dt q hq (not_lt.mp ht)
    have htim : ¬ (0 < st.player.dashTimer - dt) := by
      rw [← dashCooldownStep_dashTimer dt st.player]
      exact ht
    have hfinalA : (playerUpdate env inp dt st).player.dashActive = false := by
      rw [hplayer]
      show (invulnStep dt c).dashActive = _
      unfold invulnStep
      split <;> rw [hchainA, hrA]
    by_cases hi : 0 < c.invulnerable
    · have hfinal : (playerUpdate env inp dt st).player.invulnerable =
          st.player.invulnerable - dt := by
        rw [hplayer]
        show (invulnStep dt c).invulnerable = _
        unfold invulnStep
        rw [if_pos ⟨hi, by rw [hchainA, hrA]⟩]
        show c.invulnerable - dt = _
        rw [hchain]
      refine ⟨?_, fun _ => ⟨hfinalA, hfinal⟩, fun hcon => absurd hcon htim⟩
      intro hda
      rw [hfinalA] at hda
      exact Bool.noConfusion hda
    · have hfinal : (playerUpdate env inp dt st).player.invulnerable =
          st.player.invulnerable := by
        rw [hplayer]
        show (invulnStep dt c).invulnerable = _
        unfold invulnStep
        rw [if_neg (fun hcnd => hi hcnd.1)]
        exact hchain
      exact ⟨fun _ => hfinal, fun hne => absurd hfinal hne,
        fun hcon => absurd hcon htim⟩

theorem C10_dash_invuln_frozen_witness :
    (playerUpdate sampleEnv idleInput (1/60) dashedWorld).player.dashActive = true ∧
    (playerUpdate sampleEnv idleInput (1/60) dashedWorld).player.invulnerable =
      dashedWorld.player.invulnerable :=
  (C10_dash_invuln_frozen sampleEnv idleInput (1/60) dashedWorld rfl).2.2
    (by norm_num [dashedWorld, initWorld, newPlayer])

lemma recoilStep_x (dt : ℚ) (p : Player) : (recoilStep dt p).x = p.x := by
  unfold recoilStep; split <;> rfl

lemma recoilStep_y (dt : ℚ) (p : Player) : (recoilStep dt p).y = p.y := by
  unfold recoilStep; split <;> rfl

lemma recoilStep_hp (dt : ℚ) (p : Player) : (recoilStep dt p).hp = p.hp := by
  unfold recoilStep; split <;> rfl

lemma recoilStep_dashTimer (dt : ℚ) (p : Player) :
    (recoilStep dt p).dashTimer = p.dashTimer := by
  unfold recoilStep; split <;> rfl

lemma recoilStep_ghost (dt : ℚ) (p : Player) :
    (recoilStep dt p).ghostAfterimages = p.ghostAfterimages := by
  unfold recoilStep; split <;> rfl

/-- C4: a playing, unpaused tick entered with positive hit-stop leaves every
piece of gameplay state unchanged (score, combo and its timer, bullet and
particle lists, wave, spawn counters, banner, shot stamp, game state, player
position, hp, invulnerability and dash state, and the enemy list up to its
cosmetic hit-flash timers), while running down hit-stop by dt and decaying
shake, enemy hit flashes, player recoil and dash afterimages. -/
theorem C4_hitstop_freeze (env : Env) (inp : Input) (st : World)
    (hg : st.gameState = Mode.playing) (hpz : st.paused = false)
    (hh : 0 < st.hitstop) :
    (tick env inp st).score = st.score ∧
    (tick env inp st).combo = st.combo ∧
    (tick env inp st).comboTimer = st.comboTimer ∧
    (tick env inp st).bullets = st.bullets ∧
    (tick env inp st).particles = st.particles ∧
    (tick env inp st).wave = st.wave ∧
    (tick env inp st).enemiesPerWave = st.enemiesPerWave ∧
    (tick env inp st).enemySpawnTimer = st.enemySpawnTimer ∧
    (tick env inp st).enemySpawnRate = st.enemySpawnRate ∧
    (tick env inp st).waveBannerTime = st.waveBannerTime ∧
    (tick env inp st).lastShotTime = st.lastShotTime ∧
    (tick env inp st).gameState = st.gameState ∧
    (tick env inp st).player.x = st.player.x ∧
    (tick env inp st).player.y = st.player.y ∧
    (tick env inp st).player.hp = st.player.hp ∧
    (tick env inp st).player.invulnerable = st.player.invulnerable ∧
    (tick env inp st).player.dashActive = st.player.dashActive ∧
    (tick env inp st).player.dashTimer = st.player.dashTimer ∧
    (tick env inp st).enemies = st.enemies.map (fun e =>
      if e.hitFlash > 0 then { e with hitFlash := e.hitFlash - dtOf st inp.currentTime }
      else e) ∧
    (tick env inp st).hitstop = st.hitstop - dtOf st inp.currentTime ∧
    (tick env inp st).screenShakeX = st.screenShakeX * shakeDecay ∧
    (tick env inp st).screenShakeY = st.screenShakeY * shakeDecay ∧
    (tick env inp st).player.recoilOffset =
      (recoilStep (dtOf st inp.currentTime) st.player).recoilOffset ∧
    (tick env inp st).player.ghostAfterimages =
      ghostDecay (dtOf st inp.currentTime) st.player.ghostAfterimages := by
  have htick : tick env inp st =
      hitstopStep (dtOf st inp.currentTime) { st with lastTime := inp.currentTime } := by
    simp only [tick]
    rw [if_pos (⟨hg, hpz⟩ : st.gameState = Mode.playing ∧ st.paused = false), if_pos hh]
  rw [htick]
  refine ⟨rfl, rfl, rfl, rfl, rfl, rfl, rfl, rfl, rfl, rfl, rfl, ?_, ?_, ?_, ?_, ?_,
    ?_, ?_, rfl, rfl, rfl, rfl, ?_, ?_⟩
  · rfl
  · exact recoilStep_x _ _
  · exact recoilStep_y _ _
  · exact recoilStep_hp _ _
  · exact recoilStep_invuln _ _
  · exact recoilStep_dashActive _ _
  · exact recoilStep_dashTimer _ _
  · rfl
  · show ghostDecay _ (recoilStep _ _).ghostAfterimages = _
    rw [recoilStep_ghost]

theorem C4_hitstop_freeze_witness :
    (tick sampleEnv idleInput hitstopWorld).score = hitstopWorld.score ∧
    (tick sampleEnv idleInput hitstopWorld).bullets = hitstopWorld.bullets :=
  ⟨(C4_hitstop_freeze sampleEnv idleInput hitstopWorld rfl rfl
      (by norm_num [hitstopWorld])).1,
   (C4_hitstop_freeze sampleEnv idleInput hitstopWorld rfl rfl
      (by norm_num [hitstopWorld])).2.2.2.1⟩

lemma findHitRev_none (b : Bullet) (es : List Enemy)
    (h : ∀ x ∈ es, ¬ collides b x) : findHitRev b es = none := by
  induction es with
  | nil => rfl
  | cons e rest ih =>
    have hr : findHitRev b rest = none :=
      ih (fun x hx => h x (List.mem_cons_of_mem _ hx))
    simp only [findHitRev, hr]
    rw [if_neg (h e (List.mem_cons_self _ _))]

lemma findHitRev_last (b : Bullet) (e : Enemy) (l1 l2 : List Enemy)
    (hc : collides b e) (h2 : ∀ x ∈ l2, ¬ collides b x) :
    findHitRev b (l1 ++ e :: l2) = some (e, l1 ++ l2) := by
  induction l1 with
  | nil =>
    simp only [List.nil_append, findHitRev, findHitRev_none b l2 h2]
    rw [if_pos hc]
  | cons a l1 ih =>
    simp only [List.cons_append, List.append_eq, findHitRev, ih]

lemma enemiesPassAux_clear (env : Env) (es : List Enemy) (st : World)
    (h : ∀ x ∈ es, ¬ playerCollides st.player x) :
    enemiesPassAux env es st = (es, st) := by
  induction es with
  | nil => rfl
  | cons e rest ih =>
    have hr : enemiesPassAux env rest st = (rest, st) :=
      ih (fun x hx => h x (List.mem_cons_of_mem _ hx))
    simp only [enemiesPassAux, hr]
    rw [if_neg (h e (List.mem_cons_self _ _))]

/-- The second pass is the identity when no enemy touches the player. -/
lemma enemiesPass_clear (env : Env) (st : World)
    (h : ∀ x ∈ st.enemies, ¬ playerCollides st.player x) :
    enemiesPass env st = st := by
  unfold enemiesPass
  rw [enemiesPassAux_clear env st.enemies { st with enemies := [] }
    (fun x hx => h x hx)]

/-- C1: a state whose bullet list is a single bullet b overlapping the enemy e
(and no enemy listed after e), with no remaining enemy touching the player,
resolves through checkCollisions by removing exactly b and e, raising combo by
one, rearming the combo timer to comboResetTime, and adding 10 times the
incremented combo to the score. -/
theorem C1_collision_pair_resolution (env : Env) (st : World) (b : Bullet)
    (e : Enemy) (l1 l2 : List Enemy)
    (hb : st.bullets = [b]) (he : st.enemies = l1 ++ e :: l2)
    (hc : collides b e) (h2 : ∀ x ∈ l2, ¬ collides b x)
    (hp : ∀ x ∈ l1 ++ l2, ¬ playerCollides st.player x) :
    (checkCollisions env st).combo = st.combo + 1 ∧
    (checkCollisions env st).score = st.score + 10 * (st.combo + 1) ∧
    (checkCollisions env st).comboTimer = comboResetTime ∧
    (checkCollisions env st).bullets = [] ∧
    (checkCollisions env st).enemies = l1 ++ l2 := by
  have hfind : findHitRev b st.enemies = some (e, l1 ++ l2) := by
    rw [he]
    exact findHitRev_last b e l1 l2 hc h2
  set M := bulletsPass env st with hM
  have hMc : M.combo = st.combo + 1 ∧ M.score = st.score + 10 * (st.combo + 1) ∧
      M.comboTimer = comboResetTime ∧ M.bullets = [] ∧ M.enemies = l1 ++ l2 ∧
      M.player = st.player := by
    rw [hM]
    unfold bulletsPass
    rw [hb]
    refine ⟨?_, ?_, ?_, ?_, ?_, ?_⟩ <;> simp only [bulletsPassAux, hfind] <;> rfl
  obtain ⟨hq1, hq2, hq3, hq4, hq5, hq6⟩ := hMc
  have hclear : enemiesPass env M = M := by
    refine enemiesPass_clear env M ?_
    intro x hx
    rw [hq6]
    rw [hq5] at hx
    exact hp x hx
  have hfin : checkCollisions env st = M := by
    unfold checkCollisions
    rw [← hM]
    exact hclear
  rw [hfin]
  exact ⟨hq1, hq2, hq3, hq4, hq5⟩

theorem C1_collision_pair_resolution_witness :
    (checkCollisions sampleEnv hitWorld1).combo = hitWorld1.combo + 1 ∧
    (checkCollisions sampleEnv hitWorld1).bullets = [] ∧
    (checkCollisions sampleEnv hitWorld1).enemies = [] :=
  ⟨(C1_collision_pair_resolution sampleEnv hitWorld1 cexBulletA cexEnemyA [] []
      rfl rfl (by norm_num [collides, cexBulletA, cexEnemyA]) (by simp) (by simp)).1,
   (C1_collision_pair_resolution sampleEnv hitWorld1 cexBulletA cexEnemyA [] []
      rfl rfl (by norm_num [collides, cexBulletA, cexEnemyA]) (by simp) (by simp)).2.2.2.1,
   (C1_collision_pair_resolution sampleEnv hitWorld1 cexBulletA cexEnemyA [] []
      rfl rfl (by norm_num [collides, cexBulletA, cexEnemyA]) (by simp) (by simp)).2.2.2.2⟩

lemma dashCooldownStep_hp (dt : ℚ) (p : Player) :
    (dashCooldownStep dt p).hp = p.hp := by
  unfold dashCooldownStep; split <;> rfl

lemma dashCooldownStep_maxHp (dt : ℚ) (p : Player) :
    (dashCooldownStep dt p).maxHp = p.maxHp := by
  unfold dashCooldownStep; split <;> rfl

lemma dashMoveStep_hp (dt : ℚ) (p : Player) : (dashMoveStep dt p).hp = p.hp := by
  simp only [dashMoveStep]; split_ifs <;> rfl

lemma dashMoveStep_maxHp (dt : ℚ) (p : Player) :
    (dashMoveStep dt p).maxHp = p.maxHp := by
  simp only [dashMoveStep]; split_ifs <;> rfl

lemma moveInput_hp (env : Env) (inp : Input) (dt : ℚ) (p : Player) :
    (moveInput env inp dt p).hp = p.hp := by
  simp only [moveInput]; split_ifs <;> rfl

lemma moveInput_maxHp (env : Env) (inp : Input) (dt : ℚ) (p : Player) :
    (moveInput env inp dt p).maxHp = p.maxHp := by
  simp only [moveInput]; split_ifs <;> rfl

lemma recoilStep_maxHp (dt : ℚ) (p : Player) :
    (recoilStep dt p).maxHp = p.maxHp := by
  unfold recoilStep; split <;> rfl

lemma invulnStep_hp (dt : ℚ) (p : Player) : (invulnStep dt p).hp = p.hp := by
  unfold invulnStep; split <;> rfl

lemma invulnStep_maxHp (dt : ℚ) (p : Player) :
    (invulnStep dt p).maxHp = p.maxHp := by
  unfold invulnStep; split <;> rfl

lemma dashActivation_hp (env : Env) (inp : Input) (st : World) :
    (dashActivation env inp st).player.hp = st.player.hp := by
  simp only [dashActivation]; split_ifs <;> rfl

lemma dashActivation_maxHp (env : Env) (inp : Input) (st : World) :
    (dashActivation env inp st).player.maxHp = st.player.maxHp := by
  simp only [dashActivation]; split_ifs <;> rfl

lemma dashActivation_combo (env : Env) (inp : Input) (st : World) :
    (dashActivation env inp st).combo = st.combo := by
  simp only [dashActivation]; split_ifs <;> rfl

lemma playerUpdate_hp (env : Env) (inp : Input) (dt : ℚ) (st : World) :
    (playerUpdate env inp dt st).player.hp = st.player.hp := by
  simp only [playerUpdate]
  rw [invulnStep_hp]
  show (moveInput env inp dt _).hp = _
  rw [moveInput_hp, recoilStep_hp, dashMoveStep_hp, dashActivation_hp]
  show (dashCooldownStep dt st.player).hp = _
  rw [dashCooldownStep_hp]

lemma playerUpdate_maxHp (env : Env) (inp : Input) (dt : ℚ) (st : World) :
    (playerUpdate env inp dt st).player.maxHp = st.player.maxHp := by
  simp only [playerUpdate]
  rw [invulnStep_maxHp]
  show (moveInput env inp dt _).maxHp = _
  rw [moveInput_maxHp, recoilStep_maxHp, dashMoveStep_maxHp, dashActivation_maxHp]
  show (dashCooldownStep dt st.player).maxHp = _
  rw [dashCooldownStep_maxHp]

lemma playerUpdate_combo (env : Env) (inp : Input) (dt : ℚ) (st : World) :
    (playerUpdate env inp dt st).combo = st.combo := by
  simp only [playerUpdate]
  rw [dashActivation_combo]

lemma takeDamage_Inv (amount : ℚ) (env : Env) (st : World)
    (h : Inv st) (ha : 0 ≤ amount) : Inv ((takeDamage amount env st).2) := by
  obtain ⟨h0, hm, hc⟩ := h
  simp only [takeDamage]
  split_ifs with hg hhp
  · exact ⟨h0, hm, hc⟩
  · exact ⟨le_refl 0, le_trans h0 hm, hc⟩
  · exact ⟨le_of_lt (lt_of_not_le hhp), le_trans (sub_le_self _ ha) hm, hc⟩

lemma applyBulletHit_Inv (env : Env) (e : Enemy) (st : World)
    (h : Inv st) : Inv (applyBulletHit env e st) := by
  obtain ⟨h0, hm, hc⟩ := h
  refine ⟨h0, hm, ?_⟩
  show (0 : ℤ) ≤ st.combo + 1
  omega

lemma bulletsPassAux_Inv (env : Env) (bs : List Bullet) (st : World)
    (h : Inv st) : Inv (bulletsPassAux env bs st).2 := by
  induction bs with
  | nil => exact h
  | cons b rest ih =>
    simp only [bulletsPassAux]
    cases hf : findHitRev b (bulletsPassAux env rest st).2.enemies with
    | none => simpa [hf] using ih
    | some pr =>
      obtain ⟨e, rem⟩ := pr
      simp only [hf]
      exact applyBulletHit_Inv env e _ ⟨ih.1, ih.2.1, ih.2.2⟩

lemma applyEnemyPlayerHit_Inv (env : Env) (e : Enemy) (st : World)
    (h : Inv st) : Inv (applyEnemyPlayerHit env e st) := by
  have h1 : Inv (takeDamage 10 env st).2 := takeDamage_Inv 10 env st h (by norm_num)
  simp only [applyEnemyPlayerHit]
  split_ifs with hd
  · exact ⟨h1.1, h1.2.1, le_refl 0⟩
  · exact ⟨h1.1, h1.2.1, le_refl 0⟩

lemma enemiesPassAux_Inv (env : Env) (es : List Enemy) (st : World)
    (h : Inv st) : Inv (enemiesPassAux env es st).2 := by
  induction es with
  | nil => exact h
  | cons e rest ih =>
    simp only [enemiesPassAux]
    split_ifs with hcol
    · exact applyEnemyPlayerHit_Inv env e _ ih
    · exact ih

lemma bulletsPass_Inv (env : Env) (st : World) (h : Inv st) :
    Inv (bulletsPass env st) := by
  have h2 := bulletsPassAux_Inv env st.bullets { st with bullets := [] }
    ⟨h.1, h.2.1, h.2.2⟩
  exact ⟨h2.1, h2.2.1, h2.2.2⟩

lemma enemiesPass_Inv (env : Env) (st : World) (h : Inv st) :
    Inv (enemiesPass env st) := by
  have h2 := enemiesPassAux_Inv env st.enemies { st with enemies := [] }
    ⟨h.1, h.2.1, h.2.2⟩
  exact ⟨h2.1, h2.2.1, h2.2.2⟩

lemma checkCollisions_Inv (env : Env) (st : World) (h : Inv st) :
    Inv (checkCollisions env st) :=
  enemiesPass_Inv env _ (bulletsPass_Inv env st h)

lemma comboStep_Inv (dt : ℚ) (st : World) (h : Inv st) : Inv (comboStep dt st) := by
  simp only [comboStep]
  split_ifs with h1 h2
  · exact ⟨h.1, h.2.1, le_refl 0⟩
  · exact ⟨h.1, h.2.1, h.2.2⟩
  · exact h

lemma shakeStep_Inv (st : World) (h : Inv st) : Inv (shakeStep st) :=
  ⟨h.1, h.2.1, h.2.2⟩

lemma playerUpdate_Inv (env : Env) (inp : Input) (dt : ℚ) (st : World)
    (h : Inv st) : Inv (playerUpdate env inp dt st) := by
  refine ⟨?_, ?_, ?_⟩
  · rw [playerUpdate_hp]; exact h.1
  · rw [playerUpdate_hp, playerUpdate_maxHp]; exact h.2.1
  · rw [playerUpdate_combo]; exact h.2.2

lemma shootStep_Inv (env : Env) (inp : Input) (st : World) (h : Inv st) :
    Inv (shootStep env inp st) := by
  simp only [shootStep]
  split_ifs with h1
  · exact ⟨h.1, h.2.1, h.2.2⟩
  · exact h

lemma bulletsStep_Inv (env : Env) (dt : ℚ) (st : World) (h : Inv st) :
    Inv (bulletsStep env dt st) :=
  ⟨h.1, h.2.1, h.2.2⟩

lemma spawnStep_Inv (env : Env) (dt : ℚ) (st : World) (h : Inv st) :
    Inv (spawnStep env dt st) := by
  simp only [spawnStep]
  split_ifs with h1
  · exact ⟨h.1, h.2.1, h.2.2⟩
  · exact ⟨h.1, h.2.1, h.2.2⟩

lemma enemiesStep_Inv (env : Env) (dt : ℚ) (st : World) (h : Inv st) :
    Inv (enemiesStep env dt st) :=
  ⟨h.1, h.2.1, h.2.2⟩

lemma particlesStep_Inv (dt : ℚ) (st : World) (h : Inv st) :
    Inv (particlesStep dt st) :=
  ⟨h.1, h.2.1, h.2.2⟩

lemma waveStep_Inv (dt : ℚ) (st : World) (h : Inv st) : Inv (waveStep dt st) := by
  simp only [waveStep]
  split_ifs with h1 h2
  · exact ⟨h.1, h.2.1, h.2.2⟩
  · exact ⟨h.1, h.2.1, h.2.2⟩
  · exact h

lemma normalStep_Inv (env : Env) (inp : Input) (dt : ℚ) (st : World)
    (h : Inv st) : Inv (normalStep env inp dt st) := by
  unfold normalStep
  exact checkCollisions_Inv env _ (waveStep_Inv dt _ (particlesStep_Inv dt _
    (enemiesStep_Inv env dt _ (spawnStep_Inv env dt _ (bulletsStep_Inv env dt _
      (shootStep_Inv env inp _ (playerUpdate_Inv env inp dt _ (comboStep_Inv dt _
        (shakeStep_Inv _ h)))))))))

lemma hitstopStep_Inv (dt : ℚ) (st : World) (h : Inv st) :
    Inv (hitstopStep dt st) := by
  refine ⟨?_, ?_, ?_⟩
  · show (0 : ℚ) ≤ (recoilStep dt st.player).hp
    rw [recoilStep_hp]; exact h.1
  · show (recoilStep dt st.player).hp ≤ (recoilStep dt st.player).maxHp
    rw [recoilStep_hp, recoilStep_maxHp]; exact h.2.1
  · exact h.2.2

lemma tick_Inv (env : Env) (inp : Input) (st : World) (h : Inv st) :
    Inv (tick env inp st) := by
  simp only [tick]
  split_ifs with h1 h2
  · exact hitstopStep_Inv _ _ ⟨h.1, h.2.1, h.2.2⟩
  · exact normalStep_Inv env inp _ _ ⟨h.1, h.2.1, h.2.2⟩
  · exact ⟨h.1, h.2.1, h.2.2⟩

lemma runTicks_Inv (env : Env) (inps : List Input) (st : World) (h : Inv st) :
    Inv (runTicks env inps st) := by
  induction inps generalizing st with
  | nil => exact h
  | cons i rest ih =>
    show Inv (runTicks env rest (tick env i st))
    exact ih _ (tick_Inv env i st h)

lemma restart_Inv (env : Env) (st : World) : Inv (restart env st) :=
  ⟨(by norm_num : (0:ℚ) ≤ 100), le_refl _, le_refl 0⟩

/-- C2: the hp bounds and combo nonnegativity are preserved by every operation
the claim names: any tick (hence any tick sequence), takeDamage with a
nonnegative amount, the collision pass, the combo-timer expiry branch, and
restart establishes the invariant outright. -/
theorem C2_hp_combo_invariant (env : Env) (inp : Input) (st : World)
    (amount : ℚ) (hInv : Inv st) (ha : 0 ≤ amount) :
    Inv (tick env inp st) ∧
    Inv ((takeDamage amount env st).2) ∧
    Inv (checkCollisions env st) ∧
    Inv (comboStep (dtOf st inp.currentTime) st) ∧
    Inv (restart env st) ∧
    ∀ inps : List Input, Inv (runTicks env inps st) :=
  ⟨tick_Inv env inp st hInv,
   takeDamage_Inv amount env st hInv ha,
   checkCollisions_Inv env st hInv,
   comboStep_Inv _ st hInv,
   restart_Inv env st,
   fun inps => runTicks_Inv env inps st hInv⟩

theorem C2_hp_combo_invariant_witness :
    Inv (tick sampleEnv idleInput (initWorld sampleEnv)) :=
  (C2_hp_combo_invariant sampleEnv idleInput (initWorld sampleEnv) 10
    (⟨by norm_num [initWorld, newPlayer], by norm_num [initWorld, newPlayer],
      le_refl 0⟩)
    (by norm_num)).1

lemma firstHitIns_append (b : Bullet) (l : List Enemy) (e : Enemy) :
    firstHitIns b (l ++ [e]) =
      match firstHitIns b l with
      | some (hit, r) => some (hit, r ++ [e])
      | none => if collides b e then some (e, l) else none := by
  induction l with
  | nil => simp [firstHitIns]
  | cons a l ih =>
    by_cases hc : collides b a
    · simp [firstHitIns, hc]
    · simp only [List.cons_append, List.append_eq, firstHitIns, if_neg hc]
      rw [ih]
      cases hfl : firstHitIns b l with
      | none =>
        simp only [hfl]
        by_cases hce : collides b e <;> simp [hce]
      | some pr =>
        obtain ⟨hit, r⟩ := pr
        simp [hfl]

lemma firstHitIns_reverse (b : Bullet) (es : List Enemy) :
    firstHitIns b es.reverse =
      (findHitRev b es).map (fun pr => (pr.1, pr.2.reverse)) := by
  induction es with
  | nil => simp [firstHitIns, findHitRev]
  | cons e rest ih =>
    rw [List.reverse_cons, firstHitIns_append, ih]
    cases hf : findHitRev b rest with
    | none =>
      by_cases hc : collides b e <;> simp [findHitRev, hf, hc]
    | some pr =>
      obtain ⟨hit, r⟩ := pr
      simp [findHitRev, hf]

/-- Reverse the enemy list of a state (bookkeeping device for relating the
end-first source scan to a head-first scan). -/
def revEnemies (st : World) : World :=
  { st with enemies := st.enemies.reverse }

lemma applyBulletHit_revEnemies (env : Env) (e : Enemy) (st : World) :
    revEnemies (applyBulletHit env e st) = applyBulletHit env e (revEnemies st) := rfl

lemma bulletsPassInsAux_append (env : Env) (l : List Bullet) (b : Bullet)
    (st : World) :
    bulletsPassInsAux env (l ++ [b]) st =
      match firstHitIns b (bulletsPassInsAux env l st).2.enemies with
      | some (e, rem) =>
        ((bulletsPassInsAux env l st).1,
          applyBulletHit env e { (bulletsPassInsAux env l st).2 with enemies := rem })
      | none =>
        ((bulletsPassInsAux env l st).1 ++ [b], (bulletsPassInsAux env l st).2) := by
  induction l generalizing st with
  | nil =>
    simp only [List.nil_append, bulletsPassInsAux]
  | cons a l ih =>
    simp only [List.cons_append, List.append_eq, bulletsPassInsAux]
    cases hfa : firstHitIns a st.enemies with
    | some pr =>
      obtain ⟨e, rem⟩ := pr
      simp only [hfa]
      exact ih _
    | none =>
      simp only [hfa]
      rw [ih st]
      cases hfb : firstHitIns b (bulletsPassInsAux env l st).2.enemies with
      | some pr =>
        obtain ⟨e, rem⟩ := pr
        simp [hfb]
      | none => simp [hfb]

lemma bulletsPassAux_rev (env : Env) (bs : List Bullet) (st : World) :
    bulletsPassInsAux env bs.reverse (revEnemies st) =
      ((bulletsPassAux env bs st).1.reverse,
        revEnemies (bulletsPassAux env bs st).2) := by
  induction bs with
  | nil => rfl
  | cons b rest ih =>
    rw [List.reverse_cons, bulletsPassInsAux_append, ih]
    simp only [bulletsPassAux]
    rw [show (revEnemies (bulletsPassAux env rest st).2).enemies =
      (bulletsPassAux env rest st).2.enemies.reverse from rfl]
    rw [firstHitIns_reverse]
    cases hf : findHitRev b (bulletsPassAux env rest st).2.enemies with
    | none => simp [hf]
    | some pr =>
      obtain ⟨e, rem⟩ := pr
      simp only [hf, Option.map_some']
      rw [Prod.mk.injEq]
      refine ⟨rfl, ?_⟩
      rw [applyBulletHit_revEnemies]
      rfl

/-- C7 amended: the source pass equals newest-first first-match resolution:
bullets processed from the newest to the oldest, each scanning enemies from
the newest to the oldest, the first overlap consuming exactly that pair with
the usual hit effects. -/
theorem C7_newest_first_equiv (env : Env) (st : World) :
    bulletsPass env st = bulletsPassNewestFirst env st := by
  unfold bulletsPass bulletsPassNewestFirst
  have hrev : ({ st with
      bullets := ([] : List Bullet)
      enemies := st.enemies.reverse } : World) =
      revEnemies { st with bullets := [] } := rfl
  rw [hrev]
  rw [bulletsPassAux_rev env st.bullets { st with bullets := [] }]
  simp [revEnemies]

lemma shakeStep_keeps (st : World) :
    (shakeStep st).enemies = st.enemies ∧
    (shakeStep st).enemySpawnTimer = st.enemySpawnTimer ∧
    (shakeStep st).waveBannerTime = st.waveBannerTime ∧
    (shakeStep st).enemiesPerWave = st.enemiesPerWave ∧
    (shakeStep st).wave = st.wave :=
  ⟨rfl, rfl, rfl, rfl, rfl⟩

lemma comboStep_keeps (dt : ℚ) (st : World) :
    (comboStep dt st).enemies = st.enemies ∧
    (comboStep dt st).enemySpawnTimer = st.enemySpawnTimer ∧
    (comboStep dt st).waveBannerTime = st.waveBannerTime ∧
    (comboStep dt st).enemiesPerWave = st.enemiesPerWave ∧
    (comboStep dt st).wave = st.wave := by
  simp only [comboStep]
  split_ifs <;> exact ⟨rfl, rfl, rfl, rfl, rfl⟩

lemma dashActivation_keeps (env : Env) (inp : Input) (st : World) :
    (dashActivation env inp st).enemies = st.enemies ∧
    (dashActivation env inp st).enemySpawnTimer = st.enemySpawnTimer ∧
    (dashActivation env inp st).waveBannerTime = st.waveBannerTime ∧
    (dashActivation env inp st).enemiesPerWave = st.enemiesPerWave ∧
    (dashActivation env inp st).wave = st.wave := by
  simp only [dashActivation]
  split_ifs <;> exact ⟨rfl, rfl, rfl, rfl, rfl⟩

lemma playerUpdate_keeps (env : Env) (inp : Input) (dt : ℚ) (st : World) :
    (playerUpdate env inp dt st).enemies = st.enemies ∧
    (playerUpdate env inp dt st).enemySpawnTimer = st.enemySpawnTimer ∧
    (playerUpdate env inp dt st).waveBannerTime = st.waveBannerTime ∧
    (playerUpdate env inp dt st).enemiesPerWave = st.enemiesPerWave ∧
    (playerUpdate env inp dt st).wave = st.wave := by
  simp only [playerUpdate]
  exact dashActivation_keeps env inp _

lemma shootStep_keeps (env : Env) (inp : Input) (st : World) :
    (shootStep env inp st).enemies = st.enemies ∧
    (shootStep env inp st).enemySpawnTimer = st.enemySpawnTimer ∧
    (shootStep env inp st).waveBannerTime = st.waveBannerTime ∧
    (shootStep env inp st).enemiesPerWave = st.enemiesPerWave ∧
    (shootStep env inp st).wave = st.wave := by
  simp only [shootStep]
  split_ifs <;> exact ⟨rfl, rfl, rfl, rfl, rfl⟩

lemma spawnStep_keeps (env : Env) (dt : ℚ) (st : World) :
    (spawnStep env dt st).waveBannerTime = st.waveBannerTime ∧
    (spawnStep env dt st).enemiesPerWave = st.enemiesPerWave ∧
    (spawnStep env dt st).wave = st.wave := by
  simp only [spawnStep]
  split_ifs <;> exact ⟨rfl, rfl, rfl⟩

lemma spawnStep_enemies_cases (env : Env) (dt : ℚ) (st : World) :
    (spawnStep env dt st).enemies = st.enemies ++ [env.newEnemy] ∨
    ((spawnStep env dt st).enemies = st.enemies ∧
      (spawnStep env dt st).enemySpawnTimer = st.enemySpawnTimer - dt ∧
      ¬ (st.waveBannerTime ≤ 0 ∧ st.enemySpawnTimer - dt ≤ 0 ∧
          (st.enemies.length : ℤ) < st.enemiesPerWave)) := by
  simp only [spawnStep]
  split_ifs with hcond
  · exact Or.inl rfl
  · exact Or.inr ⟨rfl, rfl, hcond⟩

lemma takeDamage_wave (amount : ℚ) (env : Env) (st : World) :
    ((takeDamage amount env st).2).wave = st.wave := by
  simp only [takeDamage]
  split_ifs <;> rfl

lemma applyEnemyPlayerHit_wave (env : Env) (e : Enemy) (st : World) :
    (applyEnemyPlayerHit env e st).wave = st.wave := by
  simp only [applyEnemyPlayerHit]
  split_ifs with hd
  · show ((takeDamage 10 env st).2).wave = st.wave
    exact takeDamage_wave 10 env st
  · show ((takeDamage 10 env st).2).wave = st.wave
    exact takeDamage_wave 10 env st

lemma bulletsPassAux_wave (env : Env) (bs : List Bullet) (st : World) :
    ((bulletsPassAux env bs st).2).wave = st.wave := by
  induction bs with
  | nil => rfl
  | cons b rest ih =>
    simp only [bulletsPassAux]
    cases hf : findHitRev b (bulletsPassAux env rest st).2.enemies with
    | none => simpa [hf] using ih
    | some pr =>
      obtain ⟨e, rem⟩ := pr
      simp only [hf]
      show (applyBulletHit env e _).wave = st.wave
      exact ih

lemma enemiesPassAux_wave (env : Env) (es : List Enemy) (st : World) :
    ((enemiesPassAux env es st).2).wave = st.wave := by
  induction es with
  | nil => rfl
  | cons e rest ih =>
    simp only [enemiesPassAux]
    split_ifs with hcol
    · show (applyEnemyPlayerHit env e _).wave = st.wave
      rw [applyEnemyPlayerHit_wave]
      exact ih
    · exact ih

lemma checkCollisions_wave (env : Env) (st : World) :
    (checkCollisions env st).wave = st.wave := by
  unfold checkCollisions enemiesPass bulletsPass
  show ((enemiesPassAux env _ _).2).wave = st.wave
  rw [enemiesPassAux_wave]
  show ((bulletsPassAux env _ _).2).wave = st.wave
  exact bulletsPassAux_wave env st.bullets _

/-- The wave counter cannot change during a tick whose state has a positive
target population (true of every reachable state, where it is at least 5): the
spawn block always fires before the wave check whenever the banner is down,
the spawn timer is spent and the arena is empty, so the advance branch of the
wave check is unreachable. -/
lemma tick_wave_constant (env : Env) (inp : Input) (st : World)
    (h : 0 < st.enemiesPerWave) : (tick env inp st).wave = st.wave := by
  simp only [tick]
  split_ifs with h1 h2
  · rfl
  · show (normalStep env inp _ _).wave = st.wave
    set dt := dtOf st inp.currentTime
    set st1 : World := { st with lastTime := inp.currentTime }
    have hst1 : st1.enemiesPerWave = st.enemiesPerWave := rfl
    unfold normalStep
    rw [checkCollisions_wave]
    set K := comboStep dt (shakeStep st1) with hK
    set P := playerUpdate env inp dt K with hP
    set S := shootStep env inp P with hS
    set B := bulletsStep env dt S with hB
    set C := spawnStep env dt B with hC
    set D := enemiesStep env dt C with hD
    set E := particlesStep dt D with hE
    obtain ⟨hKe, hKt, hKb, hKw, hKv⟩ := comboStep_keeps dt (shakeStep st1)
    obtain ⟨hPe, hPt, hPb, hPw, hPv⟩ := playerUpdate_keeps env inp dt K
    obtain ⟨hSe, hSt, hSb, hSw, hSv⟩ := shootStep_keeps env inp P
    have hBe : B.enemies = S.enemies := rfl
    have hBt : B.enemySpawnTimer = S.enemySpawnTimer := rfl
    have hBb : B.waveBannerTime = S.waveBannerTime := rfl
    have hBw : B.enemiesPerWave = S.enemiesPerWave := rfl
    have hBv : B.wave = S.wave := rfl
    obtain ⟨hCb, hCw, hCv⟩ := spawnStep_keeps env dt B
    have hDe : D.enemies = C.enemies.map (enemyUpdate env dt C.player) := rfl
    have hDt : D.enemySpawnTimer = C.enemySpawnTimer := rfl
    have hDb : D.waveBannerTime = C.waveBannerTime := rfl
    have hDv : D.wave = C.wave := rfl
    have hEe : E.enemies = D.enemies := rfl
    have hEt : E.enemySpawnTimer = D.enemySpawnTimer := rfl
    have hEb : E.waveBannerTime = D.waveBannerTime := rfl
    have hEv : E.wave = D.wave := rfl
    have hwaveE : E.wave = st.wave := by
      rw [hEv, hDv, hCv, hBv, hSv, hPv, hKv]; rfl
    have hbannerE : E.waveBannerTime = st.waveBannerTime := by
      rw [hEb, hDb, hCb, hBb, hSb, hPb, hKb]; rfl
    by_cases hbp : 0 < E.waveBannerTime
    · simp only [waveStep]
      rw [if_pos hbp]
      exact hwaveE
    · have hblocked : ¬ (E.enemies = [] ∧ E.enemySpawnTimer ≤ 0) := by
        rcases spawnStep_enemies_cases env dt B with hsp | ⟨hne, hnt, hnc⟩
        · rintro ⟨hnil, -⟩
          rw [hEe, hDe, hC, hsp] at hnil
          simp at hnil
        · have hBEb : E.waveBannerTime = B.waveBannerTime := by
            rw [hEb, hDb, hC, hCb]
          have hBbanner : B.waveBannerTime ≤ 0 := by
            rw [hBEb] at hbp
            exact le_of_not_lt hbp
          rintro ⟨hnil, htle⟩
          apply hnc
          refine ⟨hBbanner, ?_, ?_⟩
          · rw [hEt, hDt, hC] at htle
            rw [show (spawnStep env dt B).enemySpawnTimer = B.enemySpawnTimer - dt
              from hnt] at htle
            exact htle
          · rw [hEe, hDe, hC, hne] at hnil
            have : B.enemies = [] := List.map_eq_nil_iff.mp hnil
            rw [this]
            simp only [List.length_nil]
            show (0 : ℤ) < B.enemiesPerWave
            rw [hBw, hSw, hPw, hKw]
            show (0 : ℤ) < (shakeStep st1).enemiesPerWave
            exact h
      simp only [waveStep]
      rw [if_neg hbp, if_neg hblocked]
      exact hwaveE
  · rfl

-- SLOW-EVAL SECTION: the firing-cadence evaluations are kept last.

set_option maxHeartbeats 2000000 in
/-- C8 counterexample: with fire held and lastShotTime at its initial value 0,
the tick at t = 0 fires no shot (the gate now - lastShotTime ≥ 0.15 fails at
now = 0), refuting the claimed shot at tick t = 0 (the claimed shot times
t = 0, 0.15, ..., 0.90 also name seven shots against the claimed count 6). -/
theorem C8_cadence_counterexample :
    fireS1.bullets.length = 0 ∧
    fireS1.lastShotTime = 0 := by
  norm_num [fireS1, fireS2, fireS3, fireS4, fireS5, fireS6, fireS7, fireS8,
    fireInput, fireWorld, tick, dtOf, hitstopStep, normalStep,
    shakeStep, comboStep, playerUpdate,
    dashCooldownStep, dashActivation, dashMoveStep, ghostDecay, recoilStep, moveInput,
    clampStep, aimStep, invulnStep, shootStep, bulletsStep, bulletUpdate, bulletOffscreen,
    spawnStep, enemiesStep, enemyUpdate, particlesStep, particleUpdate, particleDead,
    waveStep, checkCollisions, bulletsPass, bulletsPassAux, enemiesPass, enemiesPassAux,
    findHitRev, applyBulletHit, applyEnemyPlayerHit, takeDamage, collides, playerCollides,
    pushSound, addShake, spawnParticles, initWorld, newPlayer, sampleEnv, idleInput,
    inputDX, inputDY, comboResetTime, shakeDecay, shootCooldown, waveBannerDuration]

set_option maxHeartbeats 8000000 in
/-- C8 amended: fire held continuously from t = 0 for one second with
lastShotTime initially 0 yields exactly 6 bullets; no shot fires at t = 0, the
first fires at t = 0.15 and the last at t = 0.90, spaced by the 0.15 s
cooldown (no further shot fires at the final t = 1.0 tick). -/
theorem C8_cadence_amended :
    fireS8.bullets.length = 6 ∧
    fireS8.lastShotTime = 9/10 ∧
    fireS1.bullets.length = 0 ∧
    fireS2.bullets.length = 1 ∧
    fireS2.lastShotTime = 3/20 ∧
    fireS7.bullets.length = 6 ∧
    fireS7.lastShotTime = 9/10 := by
  norm_num [fireS1, fireS2, fireS3, fireS4, fireS5, fireS6, fireS7, fireS8,
    fireInput, fireWorld, tick, dtOf, hitstopStep, normalStep,
    shakeStep, comboStep, playerUpdate,
    dashCooldownStep, dashActivation, dashMoveStep, ghostDecay, recoilStep, moveInput,
    clampStep, aimStep, invulnStep, shootStep, bulletsStep, bulletUpdate, bulletOffscreen,
    spawnStep, enemiesStep, enemyUpdate, particlesStep, particleUpdate, particleDead,
    waveStep, checkCollisions, bulletsPass, bulletsPassAux, enemiesPass, enemiesPassAux,
    findHitRev, applyBulletHit, applyEnemyPlayerHit, takeDamage, collides, playerCollides,
    pushSound, addShake, spawnParticles, initWorld, newPlayer, sampleEnv, idleInput,
    inputDX, inputDY, comboResetTime, shakeDecay, shootCooldown, waveBannerDuration]

end Shooter2D
